import Mathlib

/-!
Shallow embedding, in Lean 4, of the rule-bearing slice of the
Blood-Bank-Management-System repository: the inventory ledger, the
eligibility rule, the blood-request lifecycle and the donation
lifecycle.  Every definition is translated from the JavaScript source
(mongoose schemas and express route handlers); mongoose `save`
validation of `min: 0` on `unitsAvailable` is modelled by a guarded
save that leaves the store unchanged when validation fails, which is
what a thrown validation error does to the database.
-/

namespace BloodBank

/-- The fixed catalog of eight ABO/Rh blood types
(the `enum` shared by every schema). -/
inductive BloodType where
  | Apos | Aneg | Bpos | Bneg | ABpos | ABneg | Opos | Oneg
deriving DecidableEq, Repr

/-- `bloodRequestSchema.status` enum:
pending / approved / fulfilled / cancelled / expired. -/
inductive RequestStatus where
  | pending | approved | fulfilled | cancelled | expired
deriving DecidableEq, Repr

/-- `donationSchema.status` enum:
scheduled / completed / cancelled / rejected. -/
inductive DonationStatus where
  | scheduled | completed | cancelled | rejected
deriving DecidableEq, Repr

/-- Roles of `userSchema.role`. -/
inductive Role where
  | donor | recipient | admin
deriving DecidableEq, Repr

/-- One document of the `BloodInventory` collection.  Timestamps are
milliseconds since the epoch, as JavaScript `Date` arithmetic sees them. -/
structure InventoryRecord where
  bloodType : BloodType
  unitsAvailable : Int
  lastUpdated : Int
  minimumThreshold : Int
  maxCapacity : Int
  expiringUnits : List (Int × Int)
  reservedUnits : Int
deriving DecidableEq, Repr

/-- One document of the `BloodRequest` collection (fields the core
logic touches). -/
structure BloodRequest where
  requester : Nat
  patientName : String
  bloodType : BloodType
  unitsNeeded : Int
  hospitalName : String
  medicalReason : String
  requiredDate : Int
  status : RequestStatus
  approvedBy : Option Nat
  approvedDate : Option Int
  fulfilledDate : Option Int
  notes : String
deriving DecidableEq, Repr

/-- One document of the `Donation` collection (fields the core logic
touches). -/
structure Donation where
  donor : Nat
  donationDate : Int
  bloodType : BloodType
  unitsCollected : Int
  status : DonationStatus
  staffMember : Option Nat
  notes : String
deriving DecidableEq, Repr

/-- The slice of a `User` document the ledger reads and writes. -/
structure User where
  id : Nat
  bloodType : BloodType
  lastDonation : Option Int
  donationCount : Int
deriving DecidableEq, Repr

/-- The authenticated caller supplied by the auth middleware. -/
structure AuthUser where
  id : Nat
  role : Role
deriving DecidableEq, Repr

/-- JavaScript `x || d` on an optional string: `undefined` and the
empty string are falsy. -/
def jsOrString (x : Option String) (d : String) : String :=
  match x with
  | some s => if s = "" then d else s
  | none => d

/-- `userSchema.methods.checkEligibility` from `models/User.js`:
if `lastDonation` is unset return `true`, otherwise return whether
`Math.floor((now - lastDonation) / (1000*60*60*24)) >= 56`.
`Math.floor` of the real division is floor division `Int.fdiv`. -/
def checkEligibility (lastDonation : Option Int) (now : Int) : Bool :=
  match lastDonation with
  | none => true
  | some ld => decide (56 ≤ Int.fdiv (now - ld) (1000 * 60 * 60 * 24))

/-- A fresh `BloodInventory` document built from the schema defaults:
`unitsAvailable: 0`, `minimumThreshold: 10`, `maxCapacity: 100`,
`reservedUnits: 0`, empty `expiringUnits`, `lastUpdated: Date.now`. -/
def newInventory (bt : BloodType) (now : Int) : InventoryRecord :=
  { bloodType := bt, unitsAvailable := 0, lastUpdated := now,
    minimumThreshold := 10, maxCapacity := 100,
    expiringUnits := [], reservedUnits := 0 }

/-- `BloodInventory.findOne({ bloodType })` over the collection. -/
def findInventory (s : List InventoryRecord) (bt : BloodType) :
    Option InventoryRecord :=
  s.find? (fun i => i.bloodType == bt)

/-- `inventory.save()`: mongoose validates the schema's `min: 0` on
`unitsAvailable`; a validation failure throws and leaves the collection
unchanged.  A document already present for the blood type is updated in
place; a new document is inserted. -/
def saveInventory (s : List InventoryRecord) (inv : InventoryRecord) :
    List InventoryRecord :=
  if 0 ≤ inv.unitsAvailable then
    if (findInventory s inv.bloodType).isSome then
      s.map (fun i => if i.bloodType == inv.bloodType then inv else i)
    else s ++ [inv]
  else s

/-- Request-creation body (`POST /requests`): the handler spreads the raw
body into the new document (`{...req.body, requester: req.user.id}`), so
the caller may supply any schema field, including `status`; an absent
field takes the schema default. -/
structure RequestBody where
  patientName : String
  bloodType : BloodType
  unitsNeeded : Int
  hospitalName : String
  medicalReason : String
  requiredDate : Int
  status : Option RequestStatus
  requester : Option Nat
  notes : Option String
deriving DecidableEq, Repr

/-- The document built by
`new BloodRequest({...req.body, requester: req.user.id})`: every body
field is kept, `requester` is overwritten with the caller's id, and absent
fields take the schema defaults (`status: 'pending'`, null audit fields,
empty `notes`). -/
def createBloodRequest (body : RequestBody) (userId : Nat) : BloodRequest :=
  { requester := userId
    patientName := body.patientName
    bloodType := body.bloodType
    unitsNeeded := body.unitsNeeded
    hospitalName := body.hospitalName
    medicalReason := body.medicalReason
    requiredDate := body.requiredDate
    status := body.status.getD RequestStatus.pending
    approvedBy := none
    approvedDate := none
    fulfilledDate := none
    notes := body.notes.getD "" }

/-- `bloodRequestSchema` save validation: `unitsNeeded` carries
`min: 1, max: 10`, and the `required: true` string fields
(`patientName`, `hospitalName`, `medicalReason`) reject the empty
string; the enum-typed and numeric fields are well-typed by
construction. -/
def validBloodRequest (r : BloodRequest) : Bool :=
  decide (1 ≤ r.unitsNeeded) && decide (r.unitsNeeded ≤ 10) &&
  decide (r.patientName ≠ "") && decide (r.hospitalName ≠ "") &&
  decide (r.medicalReason ≠ "")

/-- `POST /requests` acting on the two collections it could touch:
`bloodRequest.save()` inserts the built document when schema validation
passes and throws a validation error (500 response, nothing stored)
otherwise; the inventory collection is never read or written. -/
def createRequestRoute (requests : List BloodRequest)
    (inventoryColl : List InventoryRecord) (body : RequestBody)
    (userId : Nat) :
    Option BloodRequest × List BloodRequest × List InventoryRecord :=
  let r := createBloodRequest body userId
  if validBloodRequest r then (some r, requests ++ [r], inventoryColl)
  else (none, requests, inventoryColl)

/-- The inventory mutation of `PATCH /requests/:id/status` on `fulfilled`:
look up the record for the request's blood type; only when
`unitsAvailable >= unitsNeeded`, decrement by `unitsNeeded`, stamp
`lastUpdated` and save; otherwise leave the collection untouched. -/
def fulfillInventory (s : List InventoryRecord) (request : BloodRequest)
    (now : Int) : List InventoryRecord :=
  match findInventory s request.bloodType with
  | some i =>
    if request.unitsNeeded ≤ i.unitsAvailable then
      saveInventory s
        { i with unitsAvailable := i.unitsAvailable - request.unitsNeeded,
                 lastUpdated := now }
    else s
  | none => s

/-- `PATCH /requests/:id/status` (admin): set `status` and `notes`; on
`approved` stamp `approvedBy`/`approvedDate`; on `fulfilled` stamp
`fulfilledDate` and run the guarded inventory decrement. -/
def updateRequestStatusRoute (request : BloodRequest)
    (s : List InventoryRecord) (adminId : Nat) (status : RequestStatus)
    (notes : Option String) (now : Int) :
    BloodRequest × List InventoryRecord :=
  let r1 := { request with status := status,
                           notes := jsOrString notes request.notes }
  let r2 := if status = RequestStatus.approved then
      { r1 with approvedBy := some adminId, approvedDate := some now }
    else r1
  if status = RequestStatus.fulfilled then
    ({ r2 with fulfilledDate := some now }, fulfillInventory s request now)
  else (r2, s)

/-- Outcome of `DELETE /requests/:id`, one per handler response. -/
inductive DeleteResult where
  | notFound | forbidden | invalidState | deleted
deriving DecidableEq, Repr

/-- `DELETE /requests/:id`: 404 when the id is absent; 403 when the caller
is neither admin nor owner; 400 unless the status is `pending` or
`cancelled`; otherwise `findByIdAndDelete`. -/
def deleteRequestRoute (store : List (Nat × BloodRequest)) (reqId : Nat)
    (user : AuthUser) : DeleteResult × List (Nat × BloodRequest) :=
  match store.find? (fun p => p.1 == reqId) with
  | none => (DeleteResult.notFound, store)
  | some (_, r) =>
    if user.role ≠ Role.admin ∧ r.requester ≠ user.id then
      (DeleteResult.forbidden, store)
    else if r.status = RequestStatus.pending ∨
        r.status = RequestStatus.cancelled then
      (DeleteResult.deleted, store.filter (fun p => p.1 != reqId))
    else (DeleteResult.invalidState, store)

/-- Donation-creation body (`POST /blood/donate`): the handler spreads the
raw body and then overwrites `donor` and `bloodType`
(`{...req.body, donor: req.user.id, bloodType: donor.bloodType}`). -/
structure DonationBody where
  donationDate : Int
  bloodType : Option BloodType
  unitsCollected : Option Int
  status : Option DonationStatus
  donor : Option Nat
  notes : Option String
deriving DecidableEq, Repr

/-- `POST /blood/donate`: reject when the donor's `checkEligibility()`
fails (nothing saved); otherwise build and save the donation, its
`bloodType` taken from the donor profile regardless of the body. -/
def scheduleDonationRoute (donations : List Donation) (donor : User)
    (body : DonationBody) (now : Int) : Option Donation × List Donation :=
  if checkEligibility donor.lastDonation now then
    let d : Donation :=
      { donor := donor.id
        donationDate := body.donationDate
        bloodType := donor.bloodType
        unitsCollected := body.unitsCollected.getD 1
        status := body.status.getD DonationStatus.scheduled
        staffMember := none
        notes := body.notes.getD "" }
    (some d, donations ++ [d])
  else (none, donations)

/-- The inventory mutation of `PATCH /blood/:id/status` on `completed`: if
a record for the donation's blood type exists, add
`donation.unitsCollected || 1` units, stamp `lastUpdated` and save. -/
def completeInventory (s : List InventoryRecord) (d : Donation)
    (now : Int) : List InventoryRecord :=
  match findInventory s d.bloodType with
  | some i =>
    saveInventory s
      { i with
        unitsAvailable := i.unitsAvailable +
          (if d.unitsCollected = 0 then 1 else d.unitsCollected),
        lastUpdated := now }
  | none => s

/-- `PATCH /blood/:id/status` (admin): set `status`, `staffMember` and
`notes`; overwrite `unitsCollected` when a truthy value is supplied; on
`completed` (and only then) update the donor's `lastDonation` and
`donationCount` and run the inventory increment. -/
def updateDonationStatusRoute (donation : Donation) (donor : User)
    (s : List InventoryRecord) (adminId : Nat) (status : DonationStatus)
    (notes : Option String) (unitsCollected : Option Int) (now : Int) :
    Donation × User × List InventoryRecord :=
  let d1 := { donation with status := status, staffMember := some adminId,
                            notes := jsOrString notes donation.notes }
  let d2 := match unitsCollected with
    | some u => if u = 0 then d1 else { d1 with unitsCollected := u }
    | none => d1
  if status = DonationStatus.completed then
    (d2,
     { donor with lastDonation := some donation.donationDate,
                  donationCount := donor.donationCount + 1 },
     completeInventory s d2 now)
  else (d2, donor, s)

/-- `PATCH /inventory/:bloodType` (admin): find or lazily create the
record, overwrite any supplied subset of `unitsAvailable` /
`minimumThreshold` / `maxCapacity`, stamp `lastUpdated` and save. -/
def patchInventoryRoute (s : List InventoryRecord) (bt : BloodType)
    (ua mt mc : Option Int) (now : Int) : List InventoryRecord :=
  let i0 := (findInventory s bt).getD (newInventory bt now)
  saveInventory s
    { i0 with unitsAvailable := ua.getD i0.unitsAvailable,
              minimumThreshold := mt.getD i0.minimumThreshold,
              maxCapacity := mc.getD i0.maxCapacity,
              lastUpdated := now }

/-- `POST /inventory/add-units` (admin): find or lazily create the record,
add `units`, optionally append an expiring batch, stamp `lastUpdated` and
save. -/
def addUnitsRoute (s : List InventoryRecord) (bt : BloodType) (units : Int)
    (expiry : Option Int) (now : Int) : List InventoryRecord :=
  let i0 := (findInventory s bt).getD (newInventory bt now)
  saveInventory s
    { i0 with unitsAvailable := i0.unitsAvailable + units,
              expiringUnits := i0.expiringUnits ++
                (match expiry with | some e => [(e, units)] | none => []),
              lastUpdated := now }

/-- One ledger-touching operation, as dispatched by the route handlers. -/
inductive LedgerOp where
  | addUnits (bt : BloodType) (units : Int) (expiry : Option Int)
  | overwrite (bt : BloodType) (ua mt mc : Option Int)
  | fulfill (r : BloodRequest)
  | complete (d : Donation)
deriving DecidableEq, Repr

/-- Effect of one ledger operation on the inventory collection. -/
def applyLedgerOp (now : Int) (s : List InventoryRecord) :
    LedgerOp → List InventoryRecord
  | LedgerOp.addUnits bt units expiry => addUnitsRoute s bt units expiry now
  | LedgerOp.overwrite bt ua mt mc => patchInventoryRoute s bt ua mt mc now
  | LedgerOp.fulfill r => fulfillInventory s r now
  | LedgerOp.complete d => completeInventory s d now

/-- A whole sequence of ledger operations, applied one at a time. -/
def applyLedgerOps (now : Int) (s : List InventoryRecord)
    (ops : List LedgerOp) : List InventoryRecord :=
  ops.foldl (applyLedgerOp now) s

/-- Decidable statement of the stock invariant: every persisted record has
`unitsAvailable ≥ 0`. -/
def stockNonneg (s : List InventoryRecord) : Bool :=
  s.all (fun i => decide (0 ≤ i.unitsAvailable))

/-- Concrete O+ inventory document with ten units. -/
def invC1 : InventoryRecord :=
  { bloodType := BloodType.Opos, unitsAvailable := 10, lastUpdated := 0,
    minimumThreshold := 10, maxCapacity := 100, expiringUnits := [],
    reservedUnits := 0 }

/-- Concrete approved O+ request for two units. -/
def reqC1 : BloodRequest :=
  { requester := 5, patientName := "Pat", bloodType := BloodType.Opos,
    unitsNeeded := 2, hospitalName := "General", medicalReason := "surgery",
    requiredDate := 0, status := RequestStatus.approved, approvedBy := none,
    approvedDate := none, fulfilledDate := none, notes := "" }

/-- Concrete A+ inventory document with four units. -/
def invC2 : InventoryRecord :=
  { bloodType := BloodType.Apos, unitsAvailable := 4, lastUpdated := 0,
    minimumThreshold := 10, maxCapacity := 100, expiringUnits := [],
    reservedUnits := 0 }

/-- Concrete scheduled A+ donation. -/
def donC2 : Donation :=
  { donor := 3, donationDate := 500, bloodType := BloodType.Apos,
    unitsCollected := 1, status := DonationStatus.scheduled,
    staffMember := none, notes := "" }

/-- Concrete donor profile for the completion scenario. -/
def donorC2 : User :=
  { id := 3, bloodType := BloodType.Apos, lastDonation := none,
    donationCount := 7 }

/-- Request body that smuggles in a non-default `status`. -/
def bodyC4 : RequestBody :=
  { patientName := "Pat", bloodType := BloodType.Bneg, unitsNeeded := 3,
    hospitalName := "General", medicalReason := "anemia", requiredDate := 9,
    status := some RequestStatus.approved, requester := some 99,
    notes := none }

/-- Request body that leaves `status` to the schema default. -/
def bodyC4n : RequestBody :=
  { patientName := "Pat", bloodType := BloodType.Bneg, unitsNeeded := 3,
    hospitalName := "General", medicalReason := "anemia", requiredDate := 9,
    status := none, requester := none, notes := none }

/-- Concrete B+ inventory document with five units. -/
def invC5 : InventoryRecord :=
  { bloodType := BloodType.Bpos, unitsAvailable := 5, lastUpdated := 0,
    minimumThreshold := 10, maxCapacity := 100, expiringUnits := [],
    reservedUnits := 0 }

/-- A concrete mixed sequence of ledger operations. -/
def opsC5 : List LedgerOp :=
  [LedgerOp.addUnits BloodType.Bpos 20 (some 99),
   LedgerOp.overwrite BloodType.Oneg (some 2) none (some 50),
   LedgerOp.fulfill
     { requester := 5, patientName := "Pat", bloodType := BloodType.Bpos,
       unitsNeeded := 9, hospitalName := "General",
       medicalReason := "surgery", requiredDate := 0,
       status := RequestStatus.approved, approvedBy := none,
       approvedDate := none, fulfilledDate := none, notes := "" },
   LedgerOp.complete
     { donor := 3, donationDate := 500, bloodType := BloodType.Oneg,
       unitsCollected := 2, status := DonationStatus.scheduled,
       staffMember := none, notes := "" },
   LedgerOp.addUnits BloodType.Bpos (-1000) none]

/-- Concrete O+ donor who has never donated. -/
def donorC7 : User :=
  { id := 4, bloodType := BloodType.Opos, lastDonation := none,
    donationCount := 0 }

/-- Donation body that tries to supply a mismatching blood type. -/
def bodyC7 : DonationBody :=
  { donationDate := 5, bloodType := some BloodType.Aneg,
    unitsCollected := none, status := none, donor := some 77,
    notes := none }

/-- The donation the handler actually creates for `donorC7`/`bodyC7`. -/
def dC7 : Donation :=
  { donor := 4, donationDate := 5, bloodType := BloodType.Opos,
    unitsCollected := 1, status := DonationStatus.scheduled,
    staffMember := none, notes := "" }

/-- Concrete pending request owned by user five. -/
def reqC9 : BloodRequest :=
  { requester := 5, patientName := "Pat", bloodType := BloodType.Opos,
    unitsNeeded := 2, hospitalName := "General", medicalReason := "surgery",
    requiredDate := 0, status := RequestStatus.pending, approvedBy := none,
    approvedDate := none, fulfilledDate := none, notes := "" }

/-- Concrete admin caller. -/
def adminC9 : AuthUser := { id := 1, role := Role.admin }

end BloodBank

namespace BloodBank

theorem find_map_update (t : List InventoryRecord) (inv : InventoryRecord)
    (hf : (t.find? (fun i => i.bloodType == inv.bloodType)).isSome) :
    (t.map (fun i => if i.bloodType == inv.bloodType then inv else i)).find?
      (fun i => i.bloodType == inv.bloodType) = some inv := by
  induction t with
  | nil => simp at hf
  | cons a t ih =>
    cases ha : (a.bloodType == inv.bloodType) with
    | true =>
      simp only [List.map_cons, ha, if_true, List.find?_cons, beq_self_eq_true]
    | false =>
      simp only [List.find?_cons, ha] at hf
      simp only [List.map_cons, ha, Bool.false_eq_true, if_false, List.find?_cons]
      exact ih hf

theorem find_append_new (t : List InventoryRecord) (inv : InventoryRecord)
    (hf : t.find? (fun i => i.bloodType == inv.bloodType) = none) :
    (t ++ [inv]).find? (fun i => i.bloodType == inv.bloodType) = some inv := by
  induction t with
  | nil => simp
  | cons a t ih =>
    cases ha : (a.bloodType == inv.bloodType) with
    | true =>
      simp only [List.find?_cons, ha] at hf
      exact absurd hf (by simp)
    | false =>
      simp only [List.find?_cons, ha] at hf
      simp only [List.cons_append, List.find?_cons, ha]
      exact ih hf

theorem findInventory_saveInventory (s : List InventoryRecord)
    (inv : InventoryRecord) (h0 : 0 ≤ inv.unitsAvailable) :
    findInventory (saveInventory s inv) inv.bloodType = some inv := by
  unfold saveInventory
  rw [if_pos h0]
  by_cases hf : (findInventory s inv.bloodType).isSome
  · rw [if_pos hf]
    exact find_map_update s inv hf
  · rw [if_neg hf]
    apply find_append_new
    rw [Option.isSome_iff_exists] at hf
    push_neg at hf
    rcases h : findInventory s inv.bloodType with _ | v
    · exact h
    · exact absurd h (by simpa using hf v)

end BloodBank

namespace BloodBank

/-- Claim C3: the eligibility check returns true when `lastDonation` is
absent; otherwise it returns true iff `floor((now - lastDonation) / 1 day)`
is at least 56; a gap of exactly 56 days yields true and a gap of 55 days
yields false. -/
theorem c3_eligibility_rule (ld now : Int) :
    checkEligibility none now = true ∧
    (checkEligibility (some ld) now = true ↔
      56 ≤ Int.fdiv (now - ld) (1000 * 60 * 60 * 24)) ∧
    checkEligibility (some ld) (ld + 56 * (1000 * 60 * 60 * 24)) = true ∧
    checkEligibility (some ld) (ld + 55 * (1000 * 60 * 60 * 24)) = false := by
  refine ⟨rfl, by simp [checkEligibility], ?_, ?_⟩
  · have h : ld + 56 * (1000 * 60 * 60 * 24) - ld = 56 * (1000 * 60 * 60 * 24) := by
      omega
    simp only [checkEligibility, h]
    rw [Int.mul_fdiv_cancel 56 (by norm_num)]
    decide
  · have h : ld + 55 * (1000 * 60 * 60 * 24) - ld = 55 * (1000 * 60 * 60 * 24) := by
      omega
    simp only [checkEligibility, h]
    rw [Int.mul_fdiv_cancel 55 (by norm_num)]
    decide

/-- Claim C1: updating a request to `fulfilled` while an inventory record
for its blood type exists sets `status = fulfilled` and stamps
`fulfilledDate`; when the record has `unitsAvailable ≥ unitsNeeded` it is
decremented by exactly `unitsNeeded` with `lastUpdated` stamped, and when
`unitsAvailable < unitsNeeded` the inventory collection is left completely
unchanged. -/
theorem c1_fulfilled_inventory (request : BloodRequest)
    (s : List InventoryRecord) (adminId : Nat) (notes : Option String)
    (now : Int) (i : InventoryRecord)
    (hfind : findInventory s request.bloodType = some i) :
    (updateRequestStatusRoute request s adminId RequestStatus.fulfilled
      notes now).1.status = RequestStatus.fulfilled ∧
    (updateRequestStatusRoute request s adminId RequestStatus.fulfilled
      notes now).1.fulfilledDate = some now ∧
    (request.unitsNeeded ≤ i.unitsAvailable →
      findInventory (updateRequestStatusRoute request s adminId
          RequestStatus.fulfilled notes now).2 request.bloodType =
        some { i with
          unitsAvailable := i.unitsAvailable - request.unitsNeeded,
          lastUpdated := now }) ∧
    (i.unitsAvailable < request.unitsNeeded →
      (updateRequestStatusRoute request s adminId RequestStatus.fulfilled
        notes now).2 = s) := by
  have hbt : i.bloodType = request.bloodType := by
    have := List.find?_some hfind
    simpa using this
  have h2 : (updateRequestStatusRoute request s adminId
      RequestStatus.fulfilled notes now).2 = fulfillInventory s request now := by
    simp [updateRequestStatusRoute]
  refine ⟨by simp [updateRequestStatusRoute],
    by simp [updateRequestStatusRoute], ?_, ?_⟩
  · intro hle
    rw [h2]
    unfold fulfillInventory
    simp only [hfind]
    rw [if_pos hle]
    have h0 : 0 ≤ i.unitsAvailable - request.unitsNeeded := by omega
    have hsave := findInventory_saveInventory s
      { i with unitsAvailable := i.unitsAvailable - request.unitsNeeded,
               lastUpdated := now } (by simpa using h0)
    simpa [hbt] using hsave
  · intro hlt
    rw [h2]
    unfold fulfillInventory
    simp only [hfind]
    rw [if_neg (by omega)]

/-- Witness: fulfilling the concrete request `reqC1` against the concrete
ten-unit O+ record `invC1` removes exactly two units. -/
theorem c1_fulfilled_inventory_witness :
    findInventory (updateRequestStatusRoute reqC1 [invC1] 1
        RequestStatus.fulfilled none 777).2 reqC1.bloodType =
      some { invC1 with
        unitsAvailable := invC1.unitsAvailable - reqC1.unitsNeeded,
        lastUpdated := 777 } :=
  (c1_fulfilled_inventory reqC1 [invC1] 1 none 777 invC1 rfl).2.2.1
    (by decide)

/-- Claim C2: updating a donation to `completed` with a collected-units
value `u ≥ 1`, while an inventory record for the donation's blood type
exists, sets the donor's `lastDonation` to the donation's date, increments
the donor's `donationCount` by one, and increments the record's
`unitsAvailable` by exactly `u` with `lastUpdated` stamped — all in the
same handler execution. -/
theorem c2_completed_side_effects (donation : Donation) (donor : User)
    (s : List InventoryRecord) (adminId : Nat) (notes : Option String)
    (u now : Int) (i : InventoryRecord)
    (hfind : findInventory s donation.bloodType = some i)
    (hu : 1 ≤ u) (hinv : 0 ≤ i.unitsAvailable) :
    (updateDonationStatusRoute donation donor s adminId
      DonationStatus.completed notes (some u) now).2.1.lastDonation =
        some donation.donationDate ∧
    (updateDonationStatusRoute donation donor s adminId
      DonationStatus.completed notes (some u) now).2.1.donationCount =
        donor.donationCount + 1 ∧
    findInventory (updateDonationStatusRoute donation donor s adminId
        DonationStatus.completed notes (some u) now).2.2
        donation.bloodType =
      some { i with unitsAvailable := i.unitsAvailable + u,
                    lastUpdated := now } := by
  have hbt : i.bloodType = donation.bloodType := by
    have := List.find?_some hfind
    simpa using this
  have hu0 : ¬ u = 0 := by omega
  refine ⟨by simp [updateDonationStatusRoute],
    by simp [updateDonationStatusRoute], ?_⟩
  have h2 : (updateDonationStatusRoute donation donor s adminId
      DonationStatus.completed notes (some u) now).2.2 =
      completeInventory s
        { donation with
          status := DonationStatus.completed,
          staffMember := some adminId,
          notes := jsOrString notes donation.notes,
          unitsCollected := u } now := by
    simp [updateDonationStatusRoute, hu0]
  rw [h2]
  unfold completeInventory
  simp only [hfind]
  rw [if_neg hu0]
  have hsave := findInventory_saveInventory s
    { i with unitsAvailable := i.unitsAvailable + u, lastUpdated := now }
    (by simp; omega)
  simpa [hbt] using hsave

/-- Witness: completing the concrete scheduled donation `donC2` with two
collected units updates `donorC2` and the four-unit A+ record `invC2`
together. -/
theorem c2_completed_side_effects_witness :
    (updateDonationStatusRoute donC2 donorC2 [invC2] 1
      DonationStatus.completed none (some 2) 900).2.1.lastDonation =
        some donC2.donationDate ∧
    (updateDonationStatusRoute donC2 donorC2 [invC2] 1
      DonationStatus.completed none (some 2) 900).2.1.donationCount =
        donorC2.donationCount + 1 ∧
    findInventory (updateDonationStatusRoute donC2 donorC2 [invC2] 1
        DonationStatus.completed none (some 2) 900).2.2 donC2.bloodType =
      some { invC2 with unitsAvailable := invC2.unitsAvailable + 2,
                        lastUpdated := 900 } :=
  c2_completed_side_effects donC2 donorC2 [invC2] 1 none 2 900 invC2 rfl
    (by decide) (by decide)

/-- Counterexample to claim C4 as stated: the creation handler spreads the
raw request body into the new document, so the schema-valid body `bodyC4`
carrying `status: 'approved'` is stored with a status that is not
`pending`. -/
theorem c4_counterexample :
    (createRequestRoute [] [] bodyC4 7).2.1 = [createBloodRequest bodyC4 7] ∧
    (createBloodRequest bodyC4 7).status = RequestStatus.approved ∧
    RequestStatus.approved ≠ RequestStatus.pending :=
  ⟨rfl, rfl, by decide⟩

/-- Claim C4 (amended): request creation never reads or modifies the
inventory collection; a document passing schema validation is stored
exactly as built, while a document failing validation (e.g. `unitsNeeded`
outside 1..10) stores nothing; the built request has status `pending`
when the body does not supply a `status`, while a caller-supplied valid
`status` is kept as given. -/
theorem c4_create_request (requests : List BloodRequest)
    (s : List InventoryRecord) (body : RequestBody) (userId : Nat) :
    (createRequestRoute requests s body userId).2.2 = s ∧
    (validBloodRequest (createBloodRequest body userId) = true →
      (createRequestRoute requests s body userId).2.1 =
        requests ++ [createBloodRequest body userId]) ∧
    (validBloodRequest (createBloodRequest body userId) = false →
      (createRequestRoute requests s body userId).2.1 = requests) ∧
    (body.status = none →
      (createBloodRequest body userId).status = RequestStatus.pending) ∧
    (∀ st, body.status = some st →
      (createBloodRequest body userId).status = st) := by
  refine ⟨?_, ?_, ?_, ?_, ?_⟩
  · unfold createRequestRoute
    by_cases hv : validBloodRequest (createBloodRequest body userId) = true
    · simp [hv]
    · simp [hv]
  · intro hv
    simp [createRequestRoute, hv]
  · intro hv
    simp [createRequestRoute, hv]
  · intro h
    simp [createBloodRequest, h]
  · intro st h
    simp [createBloodRequest, h]

/-- Witness: the schema-valid default-status body `bodyC4n` is stored as a
pending request and the inventory collection is untouched. -/
theorem c4_create_request_witness :
    (createRequestRoute [] [] bodyC4n 7).2.2 = [] ∧
    (createRequestRoute [] [] bodyC4n 7).2.1 =
      [createBloodRequest bodyC4n 7] ∧
    (createBloodRequest bodyC4n 7).status = RequestStatus.pending :=
  ⟨(c4_create_request [] [] bodyC4n 7).1,
   (c4_create_request [] [] bodyC4n 7).2.1 (by decide),
   (c4_create_request [] [] bodyC4n 7).2.2.2.1 rfl⟩

/-- Claim C7: whenever donation creation succeeds, the stored donation's
`bloodType` equals the donor profile's `bloodType`, regardless of any
`bloodType` supplied in the request body. -/
theorem c7_bloodtype_from_profile (donations : List Donation)
    (donor : User) (body : DonationBody) (now : Int) (d : Donation)
    (h : (scheduleDonationRoute donations donor body now).1 = some d) :
    d.bloodType = donor.bloodType := by
  unfold scheduleDonationRoute at h
  by_cases he : checkEligibility donor.lastDonation now
  · rw [if_pos he] at h
    simp only [Option.some.injEq] at h
    rw [← h]
  · rw [if_neg he] at h
    exact absurd h (by simp)

/-- Witness: `donorC7` is O+ while `bodyC7` claims A−; the created
donation `dC7` is O+. -/
theorem c7_bloodtype_from_profile_witness :
    dC7.bloodType = donorC7.bloodType :=
  c7_bloodtype_from_profile [] donorC7 bodyC7 0 dC7 rfl

theorem stockNonneg_saveInventory (s : List InventoryRecord)
    (inv : InventoryRecord) (h : stockNonneg s = true) :
    stockNonneg (saveInventory s inv) = true := by
  unfold saveInventory
  by_cases h0 : 0 ≤ inv.unitsAvailable
  · rw [if_pos h0]
    by_cases hf : (findInventory s inv.bloodType).isSome
    · rw [if_pos hf]
      simp only [stockNonneg, List.all_eq_true] at h ⊢
      intro x hx
      rcases List.mem_map.mp hx with ⟨y, hy, rfl⟩
      by_cases hb : (y.bloodType == inv.bloodType) = true
      · simpa [hb] using h0
      · simpa [hb] using h y hy
    · rw [if_neg hf]
      simp only [stockNonneg, List.all_eq_true] at h ⊢
      intro x hx
      rcases List.mem_append.mp hx with hx | hx
      · exact h x hx
      · simp only [List.mem_singleton] at hx
        subst hx
        simpa using h0
  · rw [if_neg h0]
    exact h

theorem stockNonneg_applyLedgerOp (now : Int) (s : List InventoryRecord)
    (op : LedgerOp) (h : stockNonneg s = true) :
    stockNonneg (applyLedgerOp now s op) = true := by
  cases op with
  | addUnits bt units expiry => exact stockNonneg_saveInventory _ _ h
  | overwrite bt ua mt mc => exact stockNonneg_saveInventory _ _ h
  | fulfill r =>
    show stockNonneg (fulfillInventory s r now) = true
    unfold fulfillInventory
    rcases hf : findInventory s r.bloodType with _ | i
    · simp only [hf]
      exact h
    · simp only [hf]
      by_cases hle : r.unitsNeeded ≤ i.unitsAvailable
      · rw [if_pos hle]
        exact stockNonneg_saveInventory _ _ h
      · rw [if_neg hle]
        exact h
  | complete d =>
    show stockNonneg (completeInventory s d now) = true
    unfold completeInventory
    rcases hf : findInventory s d.bloodType with _ | i
    · simp only [hf]
      exact h
    · simp only [hf]
      exact stockNonneg_saveInventory _ _ h

/-- Claim C5: starting from any inventory collection in which every record
has non-negative `unitsAvailable`, applying any sequence of ledger
operations (`addUnits`, admin field overwrite, request fulfillment,
donation completion) one at a time never drives any record's
`unitsAvailable` negative. -/
theorem c5_stock_never_negative (now : Int) (ops : List LedgerOp)
    (s : List InventoryRecord) (h : stockNonneg s = true) :
    stockNonneg (applyLedgerOps now s ops) = true := by
  induction ops generalizing s with
  | nil => exact h
  | cons op ops ih => exact ih _ (stockNonneg_applyLedgerOp now s op h)

/-- Witness: a concrete mixed sequence — including an attempted overdraft
and a negative `addUnits` — leaves every record non-negative. -/
theorem c5_stock_never_negative_witness :
    stockNonneg (applyLedgerOps 0 [invC5] opsC5) = true :=
  c5_stock_never_negative 0 opsC5 [invC5] (by decide)

theorem find?_filter_toss (l : List (Nat × BloodRequest)) (k : Nat) :
    (l.filter (fun p => p.1 != k)).find? (fun p => p.1 == k) = none := by
  rw [List.find?_eq_none]
  intro x hx
  have hne := (List.mem_filter.mp hx).2
  simp only [bne_iff_ne, ne_eq] at hne
  simpa using hne

/-- Claim C9: for an existing request whose caller is its owner or an
admin, deletion succeeds (and removes the stored record) exactly when the
status is `pending` or `cancelled`; any other status yields the
invalid-state rejection with the store unchanged. -/
theorem c9_delete_policy (store : List (Nat × BloodRequest)) (reqId j : Nat)
    (user : AuthUser) (r : BloodRequest)
    (hfind : store.find? (fun p => p.1 == reqId) = some (j, r))
    (hauth : user.role = Role.admin ∨ r.requester = user.id) :
    ((r.status = RequestStatus.pending ∨
        r.status = RequestStatus.cancelled) →
      (deleteRequestRoute store reqId user).1 = DeleteResult.deleted ∧
      (deleteRequestRoute store reqId user).2.find?
        (fun p => p.1 == reqId) = none) ∧
    ((r.status ≠ RequestStatus.pending ∧
        r.status ≠ RequestStatus.cancelled) →
      deleteRequestRoute store reqId user =
        (DeleteResult.invalidState, store)) := by
  have hroute : deleteRequestRoute store reqId user =
      (if user.role ≠ Role.admin ∧ r.requester ≠ user.id then
        (DeleteResult.forbidden, store)
      else if r.status = RequestStatus.pending ∨
          r.status = RequestStatus.cancelled then
        (DeleteResult.deleted, store.filter (fun p => p.1 != reqId))
      else (DeleteResult.invalidState, store)) := by
    unfold deleteRequestRoute
    rw [hfind]
  have hnofb : ¬ (user.role ≠ Role.admin ∧ r.requester ≠ user.id) := by
    rcases hauth with h | h
    · exact fun hc => hc.1 h
    · exact fun hc => hc.2 h
  rw [hroute, if_neg hnofb]
  constructor
  · intro hs
    rw [if_pos hs]
    exact ⟨rfl, find?_filter_toss store reqId⟩
  · intro hs
    rw [if_neg (by tauto)]

/-- Witness: the admin deletes the concrete pending request `reqC9`, and
the stored record is gone. -/
theorem c9_delete_policy_witness :
    (deleteRequestRoute [(1, reqC9)] 1 adminC9).1 = DeleteResult.deleted ∧
    (deleteRequestRoute [(1, reqC9)] 1 adminC9).2.find?
      (fun p => p.1 == 1) = none :=
  (c9_delete_policy [(1, reqC9)] 1 1 adminC9 reqC9 rfl (Or.inl rfl)).1
    (Or.inl rfl)

/-- Claim C10: when no inventory record exists for a blood type, the admin
field-overwrite route and the add-units route do not fail: each creates
the record from the schema defaults (0 units, threshold 10, capacity 100)
and applies the requested update to it. -/
theorem c10_lazy_create (s : List InventoryRecord) (bt : BloodType)
    (ua mt mc : Option Int) (units now : Int) (expiry : Option Int)
    (hnone : findInventory s bt = none) :
    (0 ≤ ua.getD 0 →
      findInventory (patchInventoryRoute s bt ua mt mc now) bt =
        some { bloodType := bt, unitsAvailable := ua.getD 0,
               lastUpdated := now, minimumThreshold := mt.getD 10,
               maxCapacity := mc.getD 100, expiringUnits := [],
               reservedUnits := 0 }) ∧
    (0 ≤ units →
      findInventory (addUnitsRoute s bt units expiry now) bt =
        some { bloodType := bt, unitsAvailable := units,
               lastUpdated := now, minimumThreshold := 10,
               maxCapacity := 100,
               expiringUnits :=
                 match expiry with | some e => [(e, units)] | none => [],
               reservedUnits := 0 }) := by
  constructor
  · intro h0
    unfold patchInventoryRoute
    rw [hnone]
    exact findInventory_saveInventory s _ h0
  · intro h0
    unfold addUnitsRoute
    rw [hnone]
    simp only [Option.getD_none, newInventory, zero_add, List.nil_append]
    exact findInventory_saveInventory s _ (by simpa using h0)

/-- Witness: on an empty collection, overwriting AB− to five units creates
the record with defaults for the untouched fields, and adding three O−
units creates a record holding exactly three units. -/
theorem c10_lazy_create_witness :
    findInventory (patchInventoryRoute [] BloodType.ABneg (some 5) none
        none 42) BloodType.ABneg =
      some { bloodType := BloodType.ABneg, unitsAvailable := 5,
             lastUpdated := 42, minimumThreshold := 10, maxCapacity := 100,
             expiringUnits := [], reservedUnits := 0 } ∧
    findInventory (addUnitsRoute [] BloodType.Oneg 3 none 42)
        BloodType.Oneg =
      some { bloodType := BloodType.Oneg, unitsAvailable := 3,
             lastUpdated := 42, minimumThreshold := 10, maxCapacity := 100,
             expiringUnits := [], reservedUnits := 0 } :=
  ⟨(c10_lazy_create [] BloodType.ABneg (some 5) none none 3 42 none
      rfl).1 (by decide),
   (c10_lazy_create [] BloodType.Oneg none none none 3 42 none rfl).2
      (by decide)⟩

end BloodBank
